import Mathlib

/-!
Verification of the `ensemble_derive` Model generator
(`ensemble_derive/src/model/mod.rs`).

The generator is a compile-time transformer: given a struct declaration
(name, ordered named fields with per-field attributes, struct-level options)
it either aborts with a diagnostic or emits an implementation of the Model
contract.  We embed the structural decisions the generator makes (which
fields get required-checks, which closure the create method maps with, the
table name, the key list, the primary-key constants) as an `EmittedImpl`
record, and give executable semantics to the emitted `create`, `keys` and
`primary_key` bodies, with the runtime collaborator (`ensemble::query::*`)
passed in as an explicit parameter.

The `field` and `default` submodules of the crate, and the runtime query
module, are not among the given sources; the definitions that stand in for
them are marked `Modelled from the spec:` in their doc comments and follow
the spec's wording.
-/

namespace Ensemble

/-- A runtime value held by a field of a model instance. -/
inductive Val
  | vint : Int → Val
  | vstr : String → Val
  | vbool : Bool → Val
  deriving DecidableEq, Repr

/-- A declared field type, characterised by its intrinsic default value
(`<#ty>::default()` in the emitted check). -/
inductive Ty
  | tint
  | tstr
  | tbool
  deriving DecidableEq, Repr

/-- The intrinsic default value of a type: `<#ty>::default()`. -/
def Ty.defaultVal : Ty → Val
  | .tint => .vint 0
  | .tstr => .vstr ""
  | .tbool => .vbool false

/-- Field-level `default` attribute: an optional explicit default expression
(carried as the value it evaluates to) and the `increments` flag, as accessed
by `field.attr.default.increments` in `impl_create`. -/
structure FieldDefault where
  value : Option Val
  increments : Bool
  deriving DecidableEq, Repr

/-- The recognised field-level attribute bag:
`\x7b default: expression, increments: bool, primary_key: bool \x7d`. -/
structure FieldAttr where
  default : FieldDefault
  primary_key : Bool
  deriving DecidableEq, Repr

/-- A normalized field descriptor: identifier, declared type, extracted
attributes. -/
structure Field where
  ident : String
  ty : Ty
  attr : FieldAttr
  deriving DecidableEq, Repr

/-- The ordered collection of field descriptors of one struct. -/
structure Fields where
  fields : List Field
  deriving DecidableEq, Repr

/-- The resolved per-field default rule of the spec's data model:
an explicit expression or the auto-increment marker (absence is `none`). -/
inductive DefaultRule
  | expr : Val → DefaultRule
  | increments : DefaultRule
  deriving DecidableEq, Repr

/-- Modelled from the spec: `Field::default` lives in the crate's `field`
module, which is not among the given sources.  Per the spec's data model a
FieldDescriptor's "resolved default rule" is "absent | explicit expression |
auto-increment marker", so the rule is present exactly when the field carries
an explicit default expression or the auto-increment marker. -/
def Field.default (f : Field) : Option DefaultRule :=
  if f.attr.default.increments then some .increments
  else f.attr.default.value.map .expr

/-- Modelled from the spec: `Fields::primary_key` lives in the crate's
`field` module, which is not among the given sources.  Per the spec it scans
the collection: exactly one explicit primary-key marker wins; with zero
markers a field literally named `id` is the fallback; zero markers and no
`id` is a missing-primary-key diagnostic; two or more markers is an
ambiguity diagnostic. -/
def Fields.primary_key (fs : Fields) : Except String Field :=
  match fs.fields.filter (fun f => f.attr.primary_key) with
  | [f] => .ok f
  | [] =>
    match fs.fields.find? (fun f => f.ident == "id") with
    | some f => .ok f
    | none => .error "missing primary key"
  | _ => .error "ambiguous primary key"

/-- Modelled from the spec: `Fields::keys` lives in the crate's `field`
module, which is not among the given sources.  Per the spec it lists all
field identifiers in declaration order. -/
def Fields.keys (fs : Fields) : List String :=
  fs.fields.map (fun f => f.ident)

/-- The struct's field shape, as matched against `syn::Fields::Named`. -/
inductive SynFields
  | named : List Field → SynFields
  | unnamed : List Ty → SynFields
  | unit : SynFields
  deriving DecidableEq, Repr

/-- The declaration's data, as matched against `syn::Data::Struct`. -/
inductive SynData
  | struct : SynFields → SynData
  | enum : SynData
  | union : SynData
  deriving DecidableEq, Repr

/-- The input declaration (`syn::DeriveInput`): a name and its data. -/
structure DeriveInput where
  ident : String
  data : SynData
  deriving DecidableEq, Repr

/-- Struct-level options extracted from `#[ensemble(...)]`. -/
structure Opts where
  table_name : Option String
  deriving DecidableEq, Repr

/-- Modelled from the spec: `Inflector::to_snake_case` is an external crate;
per the spec the struct name is lower-snake-cased.  Each uppercase letter is
lowercased, preceded by an underscore unless it starts the name. -/
def snakeChars : Bool → List Char → List Char
  | _, [] => []
  | first, c :: rest =>
    if c.isUpper then
      (if first then [c.toLower] else ['_', c.toLower]) ++ snakeChars false rest
    else
      c.toLower :: snakeChars false rest

/-- Lower-snake-case a string (see `snakeChars`). -/
def toSnakeCase (s : String) : String :=
  String.mk (snakeChars true s.toList)

/-- Is the character an English vowel? -/
def isVowel (c : Char) : Bool :=
  c == 'a' || c == 'e' || c == 'i' || c == 'o' || c == 'u'

/-- Modelled from the spec: `pluralizer::pluralize(_, 2, false)` is an
external crate; per the spec the snake-cased name is pluralized "using
standard English pluralization rules".  Sibilant endings take `es`, a `y`
after a consonant becomes `ies`, everything else takes `s`. -/
def pluralizeChars (w : List Char) : List Char :=
  match w.reverse with
  | 's' :: _ => w ++ ['e', 's']
  | 'x' :: _ => w ++ ['e', 's']
  | 'z' :: _ => w ++ ['e', 's']
  | 'h' :: 'c' :: _ => w ++ ['e', 's']
  | 'h' :: 's' :: _ => w ++ ['e', 's']
  | 'y' :: c :: rest =>
    if isVowel c then w ++ ['s']
    else ('s' :: 'e' :: 'i' :: c :: rest).reverse
  | _ => w ++ ['s']

/-- Pluralize a word (see `pluralizeChars`). -/
def pluralize (s : String) : String :=
  String.mk (pluralizeChars s.toList)

/-- `impl_table_name`: the explicit override taken exactly when given,
otherwise the snake-cased, pluralized struct name. -/
def impl_table_name (struct_name : String) (custom_name : Option String) : String :=
  custom_name.getD (pluralize (toSnakeCase struct_name))

/-- The required-field checks built by the loop in `impl_create`: one check
`(ident, ty)` per field whose resolved default rule is absent, fields with a
present rule are skipped (`continue`), declaration order preserved. -/
def createChecks : List Field → List (String × Ty)
  | [] => []
  | f :: rest =>
    if (Field.default f).isSome then createChecks rest
    else (f.ident, f.ty) :: createChecks rest

/-- The structural content of the fragment emitted by `impl_create`: the
ordered checks, which closure was chosen, and the field that closure
assigns. -/
structure CreatePlan where
  checks : List (String × Ty)
  increments : Bool
  pkIdent : String
  deriving DecidableEq, Repr

/-- `impl_create`: build the required checks over all fields, and choose the
increment closure iff `primary_key.attr.default.increments`. -/
def impl_create (fs : Fields) (pk : Field) : CreatePlan :=
  { checks := createChecks fs.fields
    increments := pk.attr.default.increments
    pkIdent := pk.ident }

/-- `impl_keys`: the static name list emitted into `keys()`. -/
def impl_keys (fs : Fields) : List String :=
  fs.keys

/-- `impl_primary_key`: the `PRIMARY_KEY` constant and the field read by the
`primary_key(&self)` accessor, both `stringify!(#ident)` of the resolved
primary key. -/
def impl_primary_key (pk : Field) : String × String :=
  (pk.ident, pk.ident)

/-- Modelled from the spec: the crate's `default` module (companion
default-construction emitter) is not among the given sources.  Per the spec
it sets each field to its explicit default expression when present and to
its type's intrinsic default otherwise. -/
def defaultImpl (fs : Fields) : List (String × Val) :=
  fs.fields.map (fun f => (f.ident,
    match f.attr.default.value with
    | some v => v
    | none => f.ty.defaultVal))

/-- The structural content of the emitted `impl Model` block: one component
per fragment the assembler concatenates. -/
structure EmittedImpl where
  primaryKeyType : Ty
  keys : List String
  findKeyIdent : String
  requiredChecks : List (String × Ty)
  createIncrements : Bool
  createPkIdent : String
  tableName : String
  primaryKeyConst : String
  accessorField : String
  defaults : List (String × Val)
  deriving DecidableEq, Repr

/-- The assembler: the `quote!` block of `r#impl` binding every emitted
fragment, given the field collection and the resolved primary key. -/
def mkEmitted (name : String) (opts : Opts) (fl : List Field) (pk : Field) : EmittedImpl :=
  let fs : Fields := ⟨fl⟩
  let plan := impl_create fs pk
  { primaryKeyType := pk.ty
    keys := impl_keys fs
    findKeyIdent := pk.ident
    requiredChecks := plan.checks
    createIncrements := plan.increments
    createPkIdent := plan.pkIdent
    tableName := impl_table_name name opts.table_name
    primaryKeyConst := (impl_primary_key pk).1
    accessorField := (impl_primary_key pk).2
    defaults := defaultImpl fs }

/-- `r#impl`: match `Data::Struct` (else "Model derive only supports
structs"), match `Fields::Named` (else "Model derive only supports named
fields"), resolve the primary key (propagating its diagnostic), then emit. -/
def impl (ast : DeriveInput) (opts : Opts) : Except String EmittedImpl :=
  match ast.data with
  | .struct (.named fl) =>
    match Fields.primary_key ⟨fl⟩ with
    | .ok pk => .ok (mkEmitted ast.ident opts fl pk)
    | .error e => .error e
  | .struct _ => .error "Model derive only supports named fields"
  | _ => .error "Model derive only supports structs"

/-- A model instance: a value for each field identifier. -/
abbrev Instance := String → Val

/-- Overwrite one field of an instance (`model.#primary_key = id`). -/
def updateField (m : Instance) (k : String) (v : Val) : Instance :=
  fun k' => if k' = k then v else m k'

/-- The runtime error type consumed by the emitted code; it has at least the
`Required(field_name)` variant used by the create validation. -/
inductive QueryError
  | Required : String → QueryError
  | backend : String → QueryError
  deriving DecidableEq, Repr

/-- Run the emitted required-checks in order: the first field whose current
value equals its type's intrinsic default is reported, later checks are not
reached (each check is an early `return`). -/
def runChecks (checks : List (String × Ty)) (self : Instance) : Option String :=
  match checks with
  | [] => none
  | (ident, ty) :: rest =>
    if self ident = ty.defaultVal then some ident else runChecks rest self

/-- Semantics of the emitted `create(self)` body: run the required checks,
on the first violation return `Err(Required(ident))`; otherwise call the
runtime insert `rc` and map its `(model, id)` result through the chosen
closure. -/
def EmittedImpl.create (e : EmittedImpl)
    (rc : Instance → Except QueryError (Instance × Val)) (self : Instance) :
    Except QueryError Instance :=
  match runChecks e.requiredChecks self with
  | some ident => .error (.Required ident)
  | none =>
    Except.map
      (fun p => if e.createIncrements then updateField p.1 e.createPkIdent p.2 else p.1)
      (rc self)

/-- Semantics of the emitted `primary_key(&self)` accessor: read the field
the emitter baked in. -/
def EmittedImpl.primaryKeyAccess (e : EmittedImpl) (self : Instance) : Val :=
  self e.accessorField

/-- Modelled from the spec: the runtime collaborator
`ensemble::query::create` (not among the given sources) inserts the instance
and returns it together with the store-assigned increment value. -/
def queryCreate (assignedId : Val) (inst : Instance) : Except QueryError (Instance × Val) :=
  .ok (inst, assignedId)

/-- The first field, in declaration order, that has no resolved default rule
and whose current value equals its type's intrinsic default — the field the
create validation is expected to report. -/
def firstMissingRequired (fl : List Field) (self : Instance) : Option String :=
  (fl.find? (fun g => (Field.default g).isNone &&
    decide (self g.ident = g.ty.defaultVal))).map (fun g => g.ident)

/-! ### Concrete fixtures -/

/-- Fixture: an auto-increment integer primary key named `id`. -/
def idField : Field :=
  { ident := "id", ty := .tint
    attr := { default := { value := none, increments := true }, primary_key := true } }

/-- Fixture: a plain string field with no default rule. -/
def nameField : Field :=
  { ident := "name", ty := .tstr
    attr := { default := { value := none, increments := false }, primary_key := false } }

/-- Fixture: a second plain string field with no default rule. -/
def emailField : Field :=
  { ident := "email", ty := .tstr
    attr := { default := { value := none, increments := false }, primary_key := false } }

/-- Fixture: a second field carrying an explicit primary-key marker. -/
def uuidField : Field :=
  { ident := "uuid", ty := .tint
    attr := { default := { value := none, increments := false }, primary_key := true } }

/-- Fixture: the fields of the `User` struct. -/
def userFieldList : List Field := [idField, nameField, emailField]

/-- Fixture: the `User` declaration. -/
def userAst : DeriveInput := { ident := "User", data := .struct (.named userFieldList) }

/-- Fixture: no struct-level options. -/
def noOpts : Opts := { table_name := none }

/-- Fixture: a non-increment integer key named `id`, with no explicit
primary-key marker (exercises the name fallback). -/
def postIdField : Field :=
  { ident := "id", ty := .tint
    attr := { default := { value := none, increments := false }, primary_key := false } }

/-- Fixture: a string field with an explicit default expression. -/
def titleField : Field :=
  { ident := "title", ty := .tstr
    attr := { default := { value := some (.vstr "untitled"), increments := false }
              primary_key := false } }

/-- Fixture: the fields of the `Post` struct. -/
def postFieldList : List Field := [postIdField, titleField]

/-- Fixture: the `Post` declaration. -/
def postAst : DeriveInput := { ident := "Post", data := .struct (.named postFieldList) }

/-- Fixture: a `User` instance with both required string fields non-default. -/
def goodUser : Instance := fun k =>
  if k = "name" then .vstr "Alice"
  else if k = "email" then .vstr "alice at example" else .vint 0

/-- Fixture: a `User` instance with both required string fields still at
their type's intrinsic default. -/
def blankUser : Instance := fun k =>
  if k = "id" then .vint 0 else .vstr ""

/-- Fixture: a `Post` instance with a non-default key and a blank title. -/
def postInst : Instance := fun k =>
  if k = "id" then .vint 7 else .vstr ""

/-- Fixture: the implementation emitted for `userAst`. -/
def userEmitted : EmittedImpl :=
  { primaryKeyType := .tint
    keys := ["id", "name", "email"]
    findKeyIdent := "id"
    requiredChecks := [("name", .tstr), ("email", .tstr)]
    createIncrements := true
    createPkIdent := "id"
    tableName := "users"
    primaryKeyConst := "id"
    accessorField := "id"
    defaults := [("id", .vint 0), ("name", .vstr ""), ("email", .vstr "")] }

/-- Fixture: the implementation emitted for `postAst`. -/
def postEmitted : EmittedImpl :=
  { primaryKeyType := .tint
    keys := ["id", "title"]
    findKeyIdent := "id"
    requiredChecks := [("id", .tint)]
    createIncrements := false
    createPkIdent := "id"
    tableName := "posts"
    primaryKeyConst := "id"
    accessorField := "id"
    defaults := [("id", .vint 0), ("title", .vstr "untitled")] }

/-- Fixture: an enum declaration (not a struct). -/
def enumAst : DeriveInput := { ident := "Color", data := .enum }

/-- Fixture: a tuple struct (unnamed fields). -/
def tupleAst : DeriveInput := { ident := "Pair", data := .struct (.unnamed [.tint, .tint]) }

/-- Fixture: a unit struct (no named fields). -/
def unitAst : DeriveInput := { ident := "Marker", data := .struct .unit }

/-! ### Helper lemmas -/

/-- The checks built by the `impl_create` loop are exactly the
no-default-rule fields, in declaration order. -/
theorem createChecks_eq_filter (fl : List Field) :
    createChecks fl =
      (fl.filter (fun f => (Field.default f).isNone)).map (fun f => (f.ident, f.ty)) := by
  induction fl with
  | nil => rfl
  | cons f rest ih =>
    cases hd : Field.default f <;> simp [createChecks, hd, List.filter_cons, ih]

/-- Unfolding `firstMissingRequired` on a nonempty field list. -/
theorem firstMissing_cons (f : Field) (rest : List Field) (self : Instance) :
    firstMissingRequired (f :: rest) self =
      if (Field.default f).isNone && decide (self f.ident = f.ty.defaultVal)
      then some f.ident else firstMissingRequired rest self := by
  simp only [firstMissingRequired, List.find?_cons]
  cases h : ((Field.default f).isNone && decide (self f.ident = f.ty.defaultVal)) <;>
    simp [h]

/-- Running the emitted checks reports exactly the first no-default-rule
field, in declaration order, whose value equals its type's default. -/
theorem runChecks_createChecks (fl : List Field) (self : Instance) :
    runChecks (createChecks fl) self = firstMissingRequired fl self := by
  induction fl with
  | nil => rfl
  | cons f rest ih =>
    rw [firstMissing_cons]
    cases hd : Field.default f with
    | some r => simp [createChecks, hd, ih]
    | none =>
      by_cases hv : self f.ident = f.ty.defaultVal <;>
        simp [createChecks, hd, runChecks, hv, ih]

/-- Unfolding `impl` on a well-shaped declaration. -/
theorem impl_named_eq (name : String) (opts : Opts) (fl : List Field) :
    impl ⟨name, .struct (.named fl)⟩ opts =
      match Fields.primary_key ⟨fl⟩ with
      | .ok pk => .ok (mkEmitted name opts fl pk)
      | .error s => .error s := rfl

/-- A successful run on a named-field struct resolves some primary key and
emits the assembled implementation for it. -/
theorem impl_ok_elim (ast : DeriveInput) (opts : Opts) (fl : List Field) (e : EmittedImpl)
    (hast : ast.data = .struct (.named fl)) (himpl : impl ast opts = .ok e) :
    ∃ pk, Fields.primary_key ⟨fl⟩ = .ok pk ∧ e = mkEmitted ast.ident opts fl pk := by
  obtain ⟨name, data⟩ := ast
  simp only at hast
  subst hast
  rw [impl_named_eq] at himpl
  cases hpk : Fields.primary_key ⟨fl⟩ with
  | ok pk =>
    rw [hpk] at himpl
    exact ⟨pk, rfl, by injection himpl with h; exact h.symm⟩
  | error s =>
    rw [hpk] at himpl
    cases himpl

/-- Unfolding `impl` by cases on the declaration's shape. -/
theorem impl_eq_match (ast : DeriveInput) (opts : Opts) :
    impl ast opts =
      match ast.data with
      | .struct (.named fl) =>
        match Fields.primary_key ⟨fl⟩ with
        | .ok pk => .ok (mkEmitted ast.ident opts fl pk)
        | .error s => .error s
      | .struct (.unnamed _) => .error "Model derive only supports named fields"
      | .struct .unit => .error "Model derive only supports named fields"
      | .enum => .error "Model derive only supports structs"
      | .union => .error "Model derive only supports structs" := by
  obtain ⟨name, data⟩ := ast
  cases data with
  | struct sf => cases sf <;> rfl
  | enum => rfl
  | union => rfl

/-- When every field before `g` passes its check and `g` fails it, `g` is
the first missing-required field of the whole list. -/
theorem firstMissing_append (pre : List Field) (g : Field) (post : List Field) (self : Instance)
    (hpre : ∀ f ∈ pre, Field.default f = none → self f.ident ≠ f.ty.defaultVal)
    (hg : Field.default g = none) (hgv : self g.ident = g.ty.defaultVal) :
    firstMissingRequired (pre ++ g :: post) self = some g.ident := by
  induction pre with
  | nil => simp [firstMissing_cons, hg, hgv]
  | cons p rest ih =>
    rw [List.cons_append, firstMissing_cons]
    have hp : ((Field.default p).isNone && decide (self p.ident = p.ty.defaultVal)) = false := by
      cases hd : Field.default p with
      | some r => simp
      | none =>
        simp only [Option.isNone_none, Bool.true_and, decide_eq_false_iff_not]
        exact hpre p (List.mem_cons_self p rest) hd
    simp only [hp, Bool.false_eq_true, if_false]
    exact ih (fun f hf hd => hpre f (List.mem_cons_of_mem p hf) hd)

/-! ### Claims -/

/-- Claim C1: the emitted `create(self)` first checks every field with no
explicit default rule against its type's intrinsic default: whenever some
such field is still at its default, `create` returns `Required` naming a
violating field, with the same result for every runtime insert (so before
any insert call is made); only when every check passes does it delegate to
the runtime insert operation, mapping its result through the chosen
closure. -/
theorem create_validates_before_insert (ast : DeriveInput) (opts : Opts)
    (fl : List Field) (e : EmittedImpl) (self : Instance)
    (hast : ast.data = .struct (.named fl))
    (himpl : impl ast opts = .ok e) :
    (∀ i, firstMissingRequired fl self = some i →
      ∀ rc, e.create rc self = .error (.Required i)) ∧
    (firstMissingRequired fl self = none →
      ∀ rc, e.create rc self =
        Except.map
          (fun p => if e.createIncrements then updateField p.1 e.createPkIdent p.2 else p.1)
          (rc self)) := by
  obtain ⟨pk, hpk, he⟩ := impl_ok_elim ast opts fl e hast himpl
  subst he
  constructor
  · intro i hi rc
    simp [EmittedImpl.create, mkEmitted, impl_create, runChecks_createChecks, hi]
  · intro hnone rc
    simp [EmittedImpl.create, mkEmitted, impl_create, runChecks_createChecks, hnone]

/-- Witness for C1: on the `User` fixture, a blank required field fails with
`Required("name")` under a concrete runtime, and a fully populated instance
delegates to the runtime insert. -/
theorem create_validates_before_insert_witness :
    userEmitted.create (queryCreate (Val.vint 1)) blankUser =
        .error (.Required "name") ∧
    userEmitted.create (queryCreate (Val.vint 1)) goodUser =
        Except.map
          (fun p => if userEmitted.createIncrements
            then updateField p.1 userEmitted.createPkIdent p.2 else p.1)
          (queryCreate (Val.vint 1) goodUser) :=
  ⟨(create_validates_before_insert userAst noOpts userFieldList userEmitted blankUser
      rfl rfl).1 "name" rfl (queryCreate (Val.vint 1)),
   (create_validates_before_insert userAst noOpts userFieldList userEmitted goodUser
      rfl rfl).2 (by decide) (queryCreate (Val.vint 1))⟩

/-- Claim C10: the emitted checks run in field-declaration order and the
first violation returns immediately: for any split of the field list where
every earlier field passes its check and `g` fails it, `create` reports
`Required(g.ident)`, whatever the later fields hold and whatever the
runtime is. -/
theorem create_reports_first_violation (ast : DeriveInput) (opts : Opts)
    (fl : List Field) (e : EmittedImpl) (self : Instance)
    (pre : List Field) (g : Field) (post : List Field)
    (hast : ast.data = .struct (.named fl))
    (himpl : impl ast opts = .ok e)
    (hsplit : fl = pre ++ g :: post)
    (hpre : ∀ f ∈ pre, Field.default f = none → self f.ident ≠ f.ty.defaultVal)
    (hg : Field.default g = none)
    (hgv : self g.ident = g.ty.defaultVal) :
    ∀ rc, e.create rc self = .error (.Required g.ident) := by
  obtain ⟨pk, hpk, he⟩ := impl_ok_elim ast opts fl e hast himpl
  subst he
  intro rc
  have hfirst := firstMissing_append pre g post self hpre hg hgv
  rw [← hsplit] at hfirst
  simp [EmittedImpl.create, mkEmitted, impl_create, runChecks_createChecks, hfirst]

/-- Witness for C10: in the `User` fixture both `name` and `email` are blank;
`create` reports `Required("name")` (the first in declaration order) and not
the also-violating later field `email`. -/
theorem create_reports_first_violation_witness :
    userEmitted.create (queryCreate (Val.vint 5)) blankUser = .error (.Required "name") ∧
    Field.default emailField = none ∧ blankUser emailField.ident = emailField.ty.defaultVal :=
  ⟨create_reports_first_violation userAst noOpts userFieldList userEmitted blankUser
      [idField] nameField [emailField] rfl rfl rfl (by decide) rfl rfl
      (queryCreate (Val.vint 5)),
   rfl, rfl⟩

/-- Claim C4: a required-field check is emitted for a field exactly when its
resolved default rule is absent: the emitted checks are precisely the
no-default-rule fields (identifier and type), in declaration order. -/
theorem required_check_iff_no_default (ast : DeriveInput) (opts : Opts)
    (fl : List Field) (e : EmittedImpl)
    (hast : ast.data = .struct (.named fl))
    (himpl : impl ast opts = .ok e) :
    e.requiredChecks =
      (fl.filter (fun f => (Field.default f).isNone)).map (fun f => (f.ident, f.ty)) := by
  obtain ⟨pk, hpk, he⟩ := impl_ok_elim ast opts fl e hast himpl
  subst he
  simp [mkEmitted, impl_create, createChecks_eq_filter]

/-- Witness for C4 at the `User` fixture: the checks are exactly the two
defaultless fields, the auto-increment `id` being exempt. -/
theorem required_check_iff_no_default_witness :
    userEmitted.requiredChecks =
      (userFieldList.filter (fun f => (Field.default f).isNone)).map
        (fun f => (f.ident, f.ty)) ∧
    userEmitted.requiredChecks = [("name", Ty.tstr), ("email", Ty.tstr)] :=
  ⟨required_check_iff_no_default userAst noOpts userFieldList userEmitted rfl rfl,
   rfl⟩

/-- Claim C2: increment policy of the emitted `create`, after all checks
pass.  With the resolved primary key marked `increments`, a successful
create returns the runtime's model with its primary-key field overwritten by
the insert-supplied value; with it not marked, create against the
spec-modelled runtime (which returns the inserted instance) yields the
pre-call instance with every field unchanged. -/
theorem create_increment_policy (ast : DeriveInput) (opts : Opts)
    (fl : List Field) (e : EmittedImpl) (self : Instance) (pk : Field)
    (hast : ast.data = .struct (.named fl))
    (himpl : impl ast opts = .ok e)
    (hpk : Fields.primary_key ⟨fl⟩ = .ok pk)
    (hpass : firstMissingRequired fl self = none) :
    (pk.attr.default.increments = true →
      ∀ rc m v, rc self = .ok (m, v) →
        e.create rc self = .ok (updateField m pk.ident v) ∧
        updateField m pk.ident v pk.ident = v) ∧
    (pk.attr.default.increments = false →
      ∀ v, e.create (queryCreate v) self = .ok self) := by
  obtain ⟨pk', hpk', he⟩ := impl_ok_elim ast opts fl e hast himpl
  rw [hpk] at hpk'
  injection hpk' with h
  subst h
  subst he
  constructor
  · intro hinc rc m v hrc
    refine ⟨?_, ?_⟩
    · simp [EmittedImpl.create, mkEmitted, impl_create, runChecks_createChecks,
        hpass, hrc, hinc, Except.map]
    · simp [updateField]
  · intro hninc v
    simp [EmittedImpl.create, mkEmitted, impl_create, runChecks_createChecks,
      hpass, queryCreate, hninc, Except.map]

/-- Witness for C2: the auto-increment `User` key is overwritten by the
store-assigned value 42; the non-increment `Post` create returns the
pre-call instance untouched. -/
theorem create_increment_policy_witness :
    (userEmitted.create (queryCreate (Val.vint 42)) goodUser =
        .ok (updateField goodUser "id" (Val.vint 42)) ∧
      updateField goodUser "id" (Val.vint 42) "id" = Val.vint 42) ∧
    postEmitted.create (queryCreate (Val.vint 99)) postInst = .ok postInst :=
  ⟨(create_increment_policy userAst noOpts userFieldList userEmitted goodUser idField
      rfl rfl rfl (by decide)).1 rfl (queryCreate (Val.vint 42)) goodUser (Val.vint 42) rfl,
   (create_increment_policy postAst noOpts postFieldList postEmitted postInst postIdField
      rfl rfl rfl (by decide)).2 rfl (Val.vint 99)⟩

/-- Claim C3: primary-key resolution over a field collection: a single
explicit marker wins; with no marker, a field literally named `id` is the
fallback; no marker and no `id` field is the missing-primary-key
diagnostic; two or more explicit markers is the ambiguity diagnostic. -/
theorem primary_key_resolution (fs : Fields) :
    (∀ f, fs.fields.filter (fun g => g.attr.primary_key) = [f] →
      fs.primary_key = .ok f) ∧
    (fs.fields.filter (fun g => g.attr.primary_key) = [] →
      (∀ f, fs.fields.find? (fun g => g.ident == "id") = some f →
        fs.primary_key = .ok f) ∧
      (fs.fields.find? (fun g => g.ident == "id") = none →
        fs.primary_key = .error "missing primary key")) ∧
    (∀ a b rest, fs.fields.filter (fun g => g.attr.primary_key) = a :: b :: rest →
      fs.primary_key = .error "ambiguous primary key") := by
  refine ⟨?_, ?_, ?_⟩
  · intro f h
    simp [Fields.primary_key, h]
  · intro h
    refine ⟨?_, ?_⟩
    · intro f hf
      simp [Fields.primary_key, h, hf]
    · intro hf
      simp [Fields.primary_key, h, hf]
  · intro a b rest h
    simp [Fields.primary_key, h]

/-- Witness for C3: an explicit marker wins in the `User` collection; the
`id`-name fallback fires for `Post`; a markerless, `id`-less collection is a
missing-primary-key diagnostic; two markers are ambiguous. -/
theorem primary_key_resolution_witness :
    Fields.primary_key ⟨userFieldList⟩ = .ok idField ∧
    Fields.primary_key ⟨postFieldList⟩ = .ok postIdField ∧
    Fields.primary_key ⟨[nameField]⟩ = .error "missing primary key" ∧
    Fields.primary_key ⟨[idField, uuidField]⟩ = .error "ambiguous primary key" :=
  ⟨(primary_key_resolution ⟨userFieldList⟩).1 idField rfl,
   ((primary_key_resolution ⟨postFieldList⟩).2.1 rfl).1 postIdField rfl,
   ((primary_key_resolution ⟨[nameField]⟩).2.1 rfl).2 rfl,
   (primary_key_resolution ⟨[idField, uuidField]⟩).2.2 idField uuidField [] rfl⟩

/-- Claim C5: the emitted TABLE_NAME equals the explicit override exactly
when one is given, and otherwise the lower-snake-cased, pluralized struct
name: `User` gives `users`, `Category` gives `categories`, and an `Order`
override gives exactly `customer_orders`; the assembler emits exactly this
name. -/
theorem table_name_derivation :
    (∀ n c, impl_table_name n (some c) = c) ∧
    (∀ n, impl_table_name n none = pluralize (toSnakeCase n)) ∧
    impl_table_name "User" none = "users" ∧
    impl_table_name "Category" none = "categories" ∧
    impl_table_name "Order" (some "customer_orders") = "customer_orders" ∧
    (∀ n opts fl pk, (mkEmitted n opts fl pk).tableName = impl_table_name n opts.table_name) :=
  ⟨fun _ _ => rfl, fun _ => rfl, by decide, by decide, rfl, fun _ _ _ _ => rfl⟩

/-- Claim C6: the generator is deterministic — identical declarations with
identical options yield identical emitted output, with no hidden state. -/
theorem impl_deterministic (a₁ a₂ : DeriveInput) (o₁ o₂ : Opts)
    (h₁ : a₁ = a₂) (h₂ : o₁ = o₂) : impl a₁ o₁ = impl a₂ o₂ := by
  subst h₁
  subst h₂
  rfl

/-- Witness for C6: two runs on the `User` fixture agree. -/
theorem impl_deterministic_witness :
    impl userAst noOpts = impl userAst noOpts :=
  impl_deterministic userAst userAst noOpts noOpts rfl rfl

/-- Claim C7: a declaration that is not a struct, or a struct without named
fields, is rejected with the corresponding diagnostic — no field analysis is
reached and no implementation is emitted, whatever the options. -/
theorem impl_rejects_malformed (ast : DeriveInput) (opts : Opts) :
    ((ast.data = .enum ∨ ast.data = .union) →
      impl ast opts = .error "Model derive only supports structs") ∧
    (∀ tys, ast.data = .struct (.unnamed tys) →
      impl ast opts = .error "Model derive only supports named fields") ∧
    (ast.data = .struct .unit →
      impl ast opts = .error "Model derive only supports named fields") := by
  refine ⟨?_, ?_, ?_⟩
  · rintro (h | h) <;> rw [impl_eq_match, h]
  · intro tys h
    rw [impl_eq_match, h]
  · intro h
    rw [impl_eq_match, h]

/-- Witness for C7: an enum, a tuple struct and a unit struct are each
rejected with the matching diagnostic. -/
theorem impl_rejects_malformed_witness :
    impl enumAst noOpts = .error "Model derive only supports structs" ∧
    impl tupleAst noOpts = .error "Model derive only supports named fields" ∧
    impl unitAst noOpts = .error "Model derive only supports named fields" :=
  ⟨(impl_rejects_malformed enumAst noOpts).1 (Or.inl rfl),
   (impl_rejects_malformed tupleAst noOpts).2.1 [.tint, .tint] rfl,
   (impl_rejects_malformed unitAst noOpts).2.2 rfl⟩

/-- Claim C8: the emitted `keys()` is the static, declaration-ordered list
of all field identifiers — a pure constant of the emitted implementation,
taking no runtime collaborator. -/
theorem keys_lists_fields_in_order (ast : DeriveInput) (opts : Opts)
    (fl : List Field) (e : EmittedImpl)
    (hast : ast.data = .struct (.named fl))
    (himpl : impl ast opts = .ok e) :
    e.keys = fl.map (fun f => f.ident) := by
  obtain ⟨pk, hpk, he⟩ := impl_ok_elim ast opts fl e hast himpl
  subst he
  rfl

/-- Witness for C8: the `User` keys are its three field names in
declaration order. -/
theorem keys_lists_fields_in_order_witness :
    userEmitted.keys = userFieldList.map (fun f => f.ident) ∧
    userEmitted.keys = ["id", "name", "email"] :=
  ⟨keys_lists_fields_in_order userAst noOpts userFieldList userEmitted rfl rfl, rfl⟩

/-- Claim C9: the emitted implementation is internally consistent about the
resolved primary key: the associated PrimaryKey type is the resolved field's
declared type, the PRIMARY_KEY constant, the accessor's field and find's key
binder are its identifier, and the accessor reads exactly that field of
`self`. -/
theorem primary_key_consistency (ast : DeriveInput) (opts : Opts)
    (fl : List Field) (e : EmittedImpl) (pk : Field)
    (hast : ast.data = .struct (.named fl))
    (himpl : impl ast opts = .ok e)
    (hpk : Fields.primary_key ⟨fl⟩ = .ok pk) :
    e.primaryKeyType = pk.ty ∧ e.primaryKeyConst = pk.ident ∧
    e.accessorField = pk.ident ∧ e.findKeyIdent = pk.ident ∧
    ∀ self : Instance, e.primaryKeyAccess self = self pk.ident := by
  obtain ⟨pk', hpk', he⟩ := impl_ok_elim ast opts fl e hast himpl
  rw [hpk] at hpk'
  injection hpk' with h
  subst h
  subst he
  exact ⟨rfl, rfl, rfl, rfl, fun _ => rfl⟩

/-- Witness for C9 at the `User` fixture. -/
theorem primary_key_consistency_witness :
    userEmitted.primaryKeyType = idField.ty ∧ userEmitted.primaryKeyConst = idField.ident ∧
    userEmitted.accessorField = idField.ident ∧ userEmitted.findKeyIdent = idField.ident ∧
    userEmitted.primaryKeyAccess goodUser = goodUser idField.ident := by
  have h := primary_key_consistency userAst noOpts userFieldList userEmitted idField rfl rfl rfl
  exact ⟨h.1, h.2.1, h.2.2.1, h.2.2.2.1, h.2.2.2.2 goodUser⟩

end Ensemble
